import Mathlib

/-!
Verification of the syndromic rule engine and triage scoring subsystem of
the medsynapse dashboard (source file src/syndexv3.py).

The embedding translates the deterministic core functions:
  parse_bp, calculate_triage_score, enhanced_triage_level, triage_level,
  who_sti_diagnosis, detect_outbreak_patterns,
and the advisory fallback handling around run_gpt.

Numeric conventions: Python floats used only in comparisons against exact
decimal constants are modelled as rationals; Python ints as integers or
naturals.  A Python value that may be None is modelled as an Option.
Python truthiness tests on numbers (for example `if sbp and sbp < 90`)
are modelled explicitly: None and 0 are falsy.
-/

namespace SynDx

/-- The record returned by `who_sti_diagnosis`: probable syndrome,
possible etiologies, treatment and lab recommendation. -/
structure SyndromicResult where
  probable : String
  possible : String
  treatment : String
  labs : String
deriving DecidableEq, Repr

/-- Per-request input collected by the STI Diagnosis tab of syndexv3.py.
Fields mirror the widgets: sex is "Female" or "Male", pregnant is "No" or
"Yes", hiv is "Unknown", "Negative" or "Positive"; vitals that failed to
parse are none. -/
structure PatientContext where
  age : ℤ
  sex : String
  pregnant : String
  hiv : String
  temp : Option ℚ
  hr : Option ℚ
  sbp : Option ℤ
  dbp : Option ℤ
  pain : ℕ
  symptoms : List String
  risks : List String
  notes : String

/-- Temperature contribution in `calculate_triage_score`
(`if temp and temp >= 39: score += 3 elif temp and temp >= 38: score += 1`).
The Python truthiness guard makes None and 0 contribute nothing. -/
def tempPoints : Option ℚ → ℕ
  | none => 0
  | some t => if t ≠ 0 ∧ 39 ≤ t then 3 else if t ≠ 0 ∧ 38 ≤ t then 1 else 0

/-- Systolic blood pressure contribution in `calculate_triage_score`
(`if sbp and sbp < 90: score += 3 elif sbp and sbp < 100: score += 1`).
The Python truthiness guard makes None and 0 contribute nothing. -/
def sbpPoints : Option ℤ → ℕ
  | none => 0
  | some b => if b ≠ 0 ∧ b < 90 then 3 else if b ≠ 0 ∧ b < 100 then 1 else 0

/-- The severe symptom set of `calculate_triage_score`. -/
def severe_symptoms : List String :=
  ["Lower abdominal pain", "Testicular/scrotal pain/swelling", "Fever"]

/-- `calculate_triage_score(temp, sbp, pain, pregnant, hiv, symptoms)`:
additive 0-10 triage score, capped at 10. -/
def calculate_triage_score (temp : Option ℚ) (sbp : Option ℤ) (pain : ℕ)
    (pregnant hiv : String) (symptoms : List String) : ℕ :=
  min 10 (tempPoints temp + sbpPoints sbp + min 3 (pain / 3)
    + (if pregnant = "Yes" then 2 else 0)
    + (if hiv = "Positive" then 1 else 0)
    + (if severe_symptoms.any (fun s => s ∈ symptoms) then 2 else 0))

/-- `enhanced_triage_level(score, symptoms, pregnant)`: maps the numeric
score to a category; the last two parameters are accepted but unused, as
in the source. -/
def enhanced_triage_level (score : ℕ) (_symptoms : List String)
    (_pregnant : String) : String :=
  if 7 ≤ score then "RED" else if 4 ≤ score then "YELLOW" else "GREEN"

/-- `triage_level(temp, sbp, pain, pregnant, hiv, symptoms)`. -/
def triage_level (temp : Option ℚ) (sbp : Option ℤ) (pain : ℕ)
    (pregnant hiv : String) (symptoms : List String) : String :=
  enhanced_triage_level (calculate_triage_score temp sbp pain pregnant hiv symptoms)
    symptoms pregnant

/-- `who_sti_diagnosis(sex, pregnant, symptoms)`: the ordered, sex-gated
WHO syndromic rule list.  The pregnant parameter is accepted but never
read, as in the source. -/
def who_sti_diagnosis (sex : String) (pregnant : String)
    (symptoms : List String) : SyndromicResult :=
  if sex = "Female" ∧
      ("Lower abdominal pain" ∈ symptoms
        ∨ "Dyspareunia" ∈ symptoms
        ∨ ("Fever" ∈ symptoms ∧ "Vaginal discharge" ∈ symptoms)) then
    { probable := "Pelvic Inflammatory Disease (PID)"
      possible := "GC/CT, anaerobes"
      treatment := "Ceftriaxone 500 mg IM once + Doxycycline 100 mg PO bid x14d + Metronidazole 500 mg PO bid x14d"
      labs := "Pregnancy test; pelvic exam; HIV & syphilis testing" }
  else if sex = "Female" ∧
      ("Vaginal discharge" ∈ symptoms ∨ "Itching/burning" ∈ symptoms) then
    { probable := "Vaginal discharge syndrome"
      possible := "GC/CT, Trichomonas, BV"
      treatment := "Ceftriaxone 500 mg IM once + Doxycycline 100 mg PO bid x7d + Metronidazole 500 mg PO bid x7d"
      labs := "Speculum exam; NAAT for GC/CT; wet mount; HIV/syphilis testing" }
  else if sex = "Male" ∧
      ("Testicular/scrotal pain/swelling" ∈ symptoms
        ∨ ("Fever" ∈ symptoms ∧ "Dysuria (painful urination)" ∈ symptoms)) then
    { probable := "Epididymo-orchitis"
      possible := "GC/CT, enteric organisms"
      treatment := "Ceftriaxone 500 mg IM once + Doxycycline 100 mg PO bid x10–14d"
      labs := "Urinalysis; NAAT for GC/CT; ultrasound if torsion suspected" }
  else if sex = "Male" ∧
      ("Urethral discharge" ∈ symptoms
        ∨ "Dysuria (painful urination)" ∈ symptoms) then
    { probable := "Urethral discharge syndrome"
      possible := "Gonorrhea, Chlamydia"
      treatment := "Ceftriaxone 500 mg IM once + Doxycycline 100 mg PO bid x7d"
      labs := "NAAT for GC/CT; HIV & syphilis testing" }
  else if "Inguinal swelling/tenderness" ∈ symptoms then
    { probable := "Inguinal bubo syndrome"
      possible := "LGV, chancroid"
      treatment := "Doxycycline 100 mg PO bid x21d OR Azithromycin 1g PO weekly x3"
      labs := "Ultrasound if abscess; HIV & syphilis testing" }
  else if "Genital ulcer(s)" ∈ symptoms then
    { probable := "Genital ulcer disease"
      possible := "Syphilis, HSV, ±Chancroid"
      treatment := "Benzathine Penicillin G 2.4 MU IM once + Acyclovir 400 mg PO tid x7–10d; Add Azithromycin 1g PO if chancroid suspected"
      labs := "RPR/VDRL; HIV testing; HSV PCR if available" }
  else
    { probable := "No clear WHO-defined syndrome"
      possible := "Consider alternative causes"
      treatment := "Symptomatic care; reassess"
      labs := "Screen HIV/syphilis; NAAT if feasible" }

/-- `classify`: the STI Diagnosis tab calls
`who_sti_diagnosis(sex, pregnant, symptoms)` on the context fields. -/
def classify (c : PatientContext) : SyndromicResult :=
  who_sti_diagnosis c.sex c.pregnant c.symptoms

/-- `score`: the tab calls
`calculate_triage_score(temp_val, sbp, pain, pregnant, hiv, symptoms)`. -/
def score_of (c : PatientContext) : ℕ :=
  calculate_triage_score c.temp c.sbp c.pain c.pregnant c.hiv c.symptoms

/-- The tab calls `triage_level(temp_val, sbp, pain, pregnant, hiv, symptoms)`. -/
def level_of (c : PatientContext) : String :=
  triage_level c.temp c.sbp c.pain c.pregnant c.hiv c.symptoms

/-! ### Claim-side scoring formulas

`claim_triage_score` is written from the words of the claimed formula
(temperature term zero only when the temperature is null, blood pressure
term zero only when the systolic value is null).  `amended_triage_score`
differs from it in exactly one clause: the systolic term is also zero
when the systolic value is exactly 0, matching the Python truthiness
guard in the source. -/

/-- Temperature term as the claim words it: 0 only when null. -/
def claimTempPoints : Option ℚ → ℕ
  | none => 0
  | some t => if 39 ≤ t then 3 else if 38 ≤ t then 1 else 0

/-- Systolic term as the claim words it: 0 only when null. -/
def claimSbpPoints : Option ℤ → ℕ
  | none => 0
  | some b => if b < 90 then 3 else if b < 100 then 1 else 0

/-- The claimed score formula, assembled from the claim text. -/
def claim_triage_score (temp : Option ℚ) (sbp : Option ℤ) (pain : ℕ)
    (pregnant hivPos : Bool) (symptoms : List String) : ℕ :=
  min 10 (claimTempPoints temp + claimSbpPoints sbp + min 3 (pain / 3)
    + (if pregnant then 2 else 0) + (if hivPos then 1 else 0)
    + (if severe_symptoms.any (fun s => s ∈ symptoms) then 2 else 0))

/-- Systolic term amended: also 0 when the systolic value is exactly 0. -/
def amendedSbpPoints : Option ℤ → ℕ
  | none => 0
  | some b => if b = 0 then 0 else if b < 90 then 3 else if b < 100 then 1 else 0

/-- The amended score formula: identical to `claim_triage_score` except
for the zero-systolic clause. -/
def amended_triage_score (temp : Option ℚ) (sbp : Option ℤ) (pain : ℕ)
    (pregnant hivPos : Bool) (symptoms : List String) : ℕ :=
  min 10 (claimTempPoints temp + amendedSbpPoints sbp + min 3 (pain / 3)
    + (if pregnant then 2 else 0) + (if hivPos then 1 else 0)
    + (if severe_symptoms.any (fun s => s ∈ symptoms) then 2 else 0))

/-! ### Advisory fallback handling

`run_gpt` ends in a try/except: it slices the model response between the
first `{` and the last `}`, feeds it to the JSON parser, and on any
exception returns a fixed fallback dictionary.  The caller in the STI
Diagnosis tab wraps the whole call in a second try/except that returns a
different fixed dictionary (which omits the labs key) on any exception.
The external call and the JSON parser are outside this repository, so
the outcome of the attempt is modelled as a three-way sum. -/

/-- The dictionary shape produced on the advisory path; `labs` is an
Option because the outer exception fallback dictionary omits that key. -/
structure AiOut where
  probable : String
  possible : String
  treatment : String
  labs : Option String
  confidence : String
  patient_sms : String
deriving DecidableEq, Repr

/-- Outcome of the external advisory attempt: a parsed structured reply,
a JSON parsing failure inside `run_gpt`, or an exception from the call
itself (network, missing key, timeout). -/
inductive AdvisoryAttempt where
  | ok (a : AiOut)
  | parseFailure
  | callFailure
deriving DecidableEq

/-- Fallback returned by the except branch inside `run_gpt`. -/
def run_gpt_fallback : AiOut :=
  { probable := "AI parsing issue", possible := "—", treatment := "—"
    labs := some "—", confidence := "low"
    patient_sms := "Return if symptoms worsen." }

/-- Fallback assigned by the except branch around the `run_gpt` call in
the STI Diagnosis tab (no labs key). -/
def ai_error_fallback : AiOut :=
  { probable := "AI error", possible := "—", treatment := "—"
    labs := none, confidence := "low"
    patient_sms := "Return if symptoms worsen." }

/-- The advisory value the tab ends up holding in `ai_out` after both
try/except layers: failures never escape, they become fallbacks. -/
def resolve_advisory : AdvisoryAttempt → AiOut
  | .ok a => a
  | .parseFailure => run_gpt_fallback
  | .callFailure => ai_error_fallback

/-- The treatment row of the WHO vs AI comparison table:
`who_result.get("treatment","-")` and `ai_out.get("treatment","-")`. -/
structure ComparisonRow where
  whoTreatment : String
  aiTreatment : String
deriving DecidableEq, Repr

/-- Builds the treatment comparison row from the deterministic result and
the resolved advisory. -/
def sti_comparison (who : SyndromicResult) (ai : AiOut) : ComparisonRow :=
  { whoTreatment := who.treatment, aiTreatment := ai.treatment }

/-! ### Outbreak pattern detection

`detect_outbreak_patterns(cases_df)` consumes the Symptoms column of the
case log, whose entries are the semicolon-joined symptom lists written
by the tab (`";".join(symptoms)`).  The window is the last
`min(50, len)` rows; the per-symptom counts come from
`str.split(";").explode().value_counts()`; a symptom is common when its
count exceeds `len(recent) * 0.3`.  The 0.3 threshold is modelled as
the exact rational 3/10; in Python it is a binary float, which can move
the comparison at exact multiples, but no claim depends on the
boundary. -/

/-- Python `str.split(";")`: splits on every semicolon, keeping empty
pieces (the split of the empty string is one empty piece). -/
def splitSemi : List Char → List (List Char)
  | [] => [[]]
  | c :: cs =>
    if c = ';' then [] :: splitSemi cs
    else
      match splitSemi cs with
      | [] => [[c]]
      | p :: ps => (c :: p) :: ps

/-- Insert one symptom into a count-descending list (stable, so ties
keep their relative order). -/
def insertByCount (ex : List (List Char)) (x : List Char) :
    List (List Char) → List (List Char)
  | [] => [x]
  | y :: ys =>
    if ex.count y < ex.count x then x :: y :: ys else y :: insertByCount ex x ys

/-- Sort symptoms by descending occurrence count, as `value_counts`
orders its index. -/
def sortByCount (ex : List (List Char)) : List (List Char) → List (List Char)
  | [] => []
  | x :: xs => insertByCount ex x (sortByCount ex xs)

/-- The alert message naming up to the top three common symptoms. -/
def outbreakAlert (names : List (List Char)) : String :=
  "⚠️ Potential outbreak pattern detected: "
    ++ String.intercalate ", " (names.map fun l => String.mk l)

/-- `detect_outbreak_patterns`: insufficient data below 10 cases; over
the most recent min(50, n) cases, count exploded symptoms; alert when at
least two distinct symptoms each occur in more than 30 percent of the
windowed cases, otherwise report no patterns. -/
def detect_outbreak_patterns (cases : List String) : String :=
  if cases.length < 10 then "Insufficient data for outbreak detection"
  else
    let recent := cases.drop (cases.length - min 50 cases.length)
    let exploded := (recent.map fun s => splitSemi s.data).flatten
    let common := exploded.dedup.filter
      fun sym => 10 * exploded.count sym > 3 * recent.length
    if 2 ≤ common.length then
      outbreakAlert ((sortByCount exploded common).take 3)
    else "✅ No outbreak patterns detected"

/-! ### Blood pressure parsing

`parse_bp(bp_str)` returns `(None, None)` for a falsy input, then
applies `re.match(r"\s*(\d+)\s*/\s*(\d+)\s*", ...)`.  `re.match`
anchors at the start of the string only: a successful match may be a
proper prefix, and anything may follow it.  For str patterns, the class
`\s` matches exactly the characters of CPython's Py_UNICODE_ISSPACE
table, and `\d` matches exactly the Unicode decimal digits (general
category Nd); `int()` on a group of Nd digits uses their decimal
values.  Both classes are embedded in full below (Nd per Unicode 14.0, the
database of CPython 3.11; newer interpreters add a few further blocks).
The regex is deterministic here: no backtracking can change the
outcome, since the digit and whitespace classes are disjoint and the
slash belongs to neither, so it is modelled by maximal-munch
scanning. -/

/-- The characters matched by the regex class `\s` for str patterns:
CPython's whitespace table (ASCII whitespace, the C1 separators
0x1C-0x1F, NEL, NBSP, and the Unicode space separators). -/
def pySpace (c : Char) : Bool :=
  decide ((0x09 ≤ c.toNat ∧ c.toNat ≤ 0x0D)
    ∨ (0x1C ≤ c.toNat ∧ c.toNat ≤ 0x1F)
    ∨ c.toNat = 0x20 ∨ c.toNat = 0x85 ∨ c.toNat = 0xA0 ∨ c.toNat = 0x1680
    ∨ (0x2000 ≤ c.toNat ∧ c.toNat ≤ 0x200A)
    ∨ c.toNat = 0x2028 ∨ c.toNat = 0x2029 ∨ c.toNat = 0x202F
    ∨ c.toNat = 0x205F ∨ c.toNat = 0x3000)

/-- First code points of the Unicode Nd decimal digit decade blocks
(each block holds the digits 0 to 9 at consecutive code points, the
digit value being the offset in the block), Unicode 14.0. -/
def ndStarts : List ℕ :=
  [0x30, 0x660, 0x6F0, 0x7C0, 0x966, 0x9E6, 0xA66, 0xAE6, 0xB66, 0xBE6,
   0xC66, 0xCE6, 0xD66, 0xDE6, 0xE50, 0xED0, 0xF20, 0x1040, 0x1090, 0x17E0,
   0x1810, 0x1946, 0x19D0, 0x1A80, 0x1A90, 0x1B50, 0x1BB0, 0x1C40, 0x1C50,
   0xA620, 0xA8D0, 0xA900, 0xA9D0, 0xA9F0, 0xAA50, 0xABF0, 0xFF10,
   0x104A0, 0x10D30, 0x11066, 0x110F0, 0x11136, 0x111D0, 0x112F0, 0x11450,
   0x114D0, 0x11650, 0x116C0, 0x11730, 0x118E0, 0x11950, 0x11C50, 0x11D50,
   0x11DA0, 0x16A60, 0x16AC0, 0x16B50,
   0x1D7CE, 0x1D7D8, 0x1D7E2, 0x1D7EC, 0x1D7F6,
   0x1E140, 0x1E2F0, 0x1E950, 0x1FBF0]

/-- The characters matched by the regex class `\d` for str patterns:
the Unicode decimal digits (category Nd). -/
def pyDigit (c : Char) : Bool :=
  ndStarts.any fun s => decide (s ≤ c.toNat ∧ c.toNat ≤ s + 9)

/-- Decimal value of an Nd digit (its offset in its block). -/
def pyDigitVal (c : Char) : ℕ :=
  match ndStarts.find? (fun s => decide (s ≤ c.toNat ∧ c.toNat ≤ s + 9)) with
  | some s => c.toNat - s
  | none => 0

/-- Numeric value of a digit run, as Python `int` on the matched group. -/
def digitsVal (ds : List Char) : ℕ :=
  ds.foldl (fun acc c => 10 * acc + pyDigitVal c) 0

/-- Match a literal slash at the head. -/
def slashTail : List Char → Option (List Char)
  | [] => none
  | c :: t => if c = '/' then some t else none

/-- The regex `\s*(\d+)\s*/\s*(\d+)\s*` applied at the start of the
character list; returns the two captured numbers on success.  The
trailing `\s*` always succeeds and captures nothing, so it imposes no
constraint. -/
def matchBp (cs : List Char) : Option (ℕ × ℕ) :=
  let t1 := cs.dropWhile pySpace
  let d1 := t1.takeWhile pyDigit
  if d1 = [] then none
  else
    (slashTail ((t1.dropWhile pyDigit).dropWhile pySpace)).bind fun t3 =>
      let d2 := (t3.dropWhile pySpace).takeWhile pyDigit
      if d2 = [] then none else some (digitsVal d1, digitsVal d2)

/-- `parse_bp`: falsy (empty) input and failed matches give
`(None, None)`; otherwise the two captured integers. -/
def parse_bp (s : String) : Option ℤ × Option ℤ :=
  if s = "" then (none, none)
  else
    match matchBp s.data with
    | some (a, b) => (some (a : ℤ), some (b : ℤ))
    | none => (none, none)

/-- Modelled from the claim text of C7: the exact input shape
digits, slash, digits, with optional surrounding whitespace and nothing
else. -/
def bpClaimShape (s : String) : Bool :=
  let trimmed := ((s.data.dropWhile pySpace).reverse.dropWhile pySpace).reverse
  let d1 := trimmed.takeWhile pyDigit
  match trimmed.dropWhile pyDigit with
  | '/' :: rest2 =>
    decide (d1 ≠ []) && decide (rest2.takeWhile pyDigit ≠ [])
      && decide (rest2.dropWhile pyDigit = [])
  | _ => false

/-- The amended acceptance relation for `parse_bp`: the string begins
with optional whitespace, a digit run valued `a`, optional whitespace, a
slash, optional whitespace, and a digit run valued `b`; any remainder
not starting with a digit may follow.  Whitespace and digits are the
Python regex classes `\s` and `\d` (`pySpace` and `pyDigit`). -/
def BpShapeHolds (s : String) (a b : ℕ) : Prop :=
  ∃ ws1 d1 ws2 ws3 d2 rest : List Char,
    s.data = ws1 ++ (d1 ++ (ws2 ++ '/' :: (ws3 ++ (d2 ++ rest))))
      ∧ (∀ c ∈ ws1, pySpace c) ∧ (∀ c ∈ ws2, pySpace c) ∧ (∀ c ∈ ws3, pySpace c)
      ∧ d1 ≠ [] ∧ (∀ c ∈ d1, pyDigit c) ∧ d2 ≠ [] ∧ (∀ c ∈ d2, pyDigit c)
      ∧ (∀ c, rest.head? = some c → ¬ pyDigit c)
      ∧ a = digitsVal d1 ∧ b = digitsVal d2

end SynDx

namespace SynDx

/-! ## Claims -/

/-- C1: for every PatientContext (every sex and every symptom set), the
classifier returns exactly one SyndromicResult whose four fields are all
non-empty strings; every branch, including the no-match fallback,
returns a complete record. -/
theorem classify_fields_nonempty (c : PatientContext) :
    (classify c).probable ≠ "" ∧ (classify c).possible ≠ ""
      ∧ (classify c).treatment ≠ "" ∧ (classify c).labs ≠ "" := by
  unfold classify who_sti_diagnosis
  split_ifs <;> exact ⟨by decide, by decide, by decide, by decide⟩

/-- C3: for every Female PatientContext whose symptom set contains
"Lower abdominal pain", the classifier returns Pelvic Inflammatory
Disease, regardless of any other symptoms present. -/
theorem female_lap_pid (c : PatientContext) (hsex : c.sex = "Female")
    (hmem : "Lower abdominal pain" ∈ c.symptoms) :
    classify c =
      { probable := "Pelvic Inflammatory Disease (PID)"
        possible := "GC/CT, anaerobes"
        treatment := "Ceftriaxone 500 mg IM once + Doxycycline 100 mg PO bid x14d + Metronidazole 500 mg PO bid x14d"
        labs := "Pregnancy test; pelvic exam; HIV & syphilis testing" } := by
  unfold classify who_sti_diagnosis
  rw [if_pos ⟨hsex, Or.inl hmem⟩]

/-- Witness for C3: a Female context carrying both "Lower abdominal pain"
and "Vaginal discharge" is classified as PID. -/
theorem female_lap_pid_witness :
    classify
      { age := 29, sex := "Female", pregnant := "No", hiv := "Unknown"
        temp := some 37, hr := some 80, sbp := some 120, dbp := some 80
        pain := 2
        symptoms := ["Vaginal discharge", "Lower abdominal pain"]
        risks := [], notes := "" } =
      { probable := "Pelvic Inflammatory Disease (PID)"
        possible := "GC/CT, anaerobes"
        treatment := "Ceftriaxone 500 mg IM once + Doxycycline 100 mg PO bid x14d + Metronidazole 500 mg PO bid x14d"
        labs := "Pregnancy test; pelvic exam; HIV & syphilis testing" } :=
  female_lap_pid _ rfl (by decide)

/-- Helper: the temperature term of the code equals the claimed
temperature term (they agree even at 0, since 0 is below 38). -/
theorem tempPoints_eq_claim (t : Option ℚ) : tempPoints t = claimTempPoints t := by
  cases t with
  | none => rfl
  | some t =>
    rcases eq_or_ne t 0 with rfl | h0
    · norm_num [tempPoints, claimTempPoints]
    · simp [tempPoints, claimTempPoints, h0]

/-- Helper: the systolic term of the code equals the amended systolic
term (zero contribution when the value is null or exactly 0). -/
theorem sbpPoints_eq_amended (b : Option ℤ) : sbpPoints b = amendedSbpPoints b := by
  cases b with
  | none => rfl
  | some b =>
    rcases eq_or_ne b 0 with rfl | h0
    · norm_num [sbpPoints, amendedSbpPoints]
    · simp [sbpPoints, amendedSbpPoints, h0]

/-- C2 counterexample: at systolic pressure exactly 0 the code gives the
systolic term 0 points (Python truthiness: `if sbp and sbp < 90`), while
the claimed formula gives 3, so the claimed score equation fails there. -/
theorem triage_score_claim_counterexample :
    calculate_triage_score (some 37) (some 0) 0 "No" "Unknown" [] = 0
      ∧ claim_triage_score (some 37) (some 0) 0 false false [] = 3
      ∧ calculate_triage_score (some 37) (some 0) 0 "No" "Unknown" []
          ≠ claim_triage_score (some 37) (some 0) 0 false false [] := by
  refine ⟨by decide, by decide, by decide⟩

/-- C2 amended: for every PatientContext the triage score equals the
claimed additive formula with the systolic clause amended to give 0
points when the systolic value is exactly 0 (as well as when it is
null), and the level mapping is RED iff score at least 7, YELLOW iff
score in [4,7), GREEN otherwise. -/
theorem triage_score_formula_amended (c : PatientContext) :
    score_of c = amended_triage_score c.temp c.sbp c.pain
        (decide (c.pregnant = "Yes")) (decide (c.hiv = "Positive")) c.symptoms
      ∧ (level_of c = "RED" ↔ 7 ≤ score_of c)
      ∧ (level_of c = "YELLOW" ↔ 4 ≤ score_of c ∧ score_of c < 7)
      ∧ (level_of c = "GREEN" ↔ score_of c < 4) := by
  obtain ⟨age, sex, preg, hiv, temp, hr, sbp, dbp, pain, syms, risks, notes⟩ := c
  refine ⟨?_, ?_, ?_, ?_⟩
  · simp [score_of, calculate_triage_score, amended_triage_score,
      tempPoints_eq_claim, sbpPoints_eq_amended]
  all_goals
    simp only [level_of, triage_level, enhanced_triage_level, score_of]
    split_ifs with h1 h2 <;> simp_all <;> omega

/-- C8 counterexample: two contexts identical except for systolic blood
pressure; the one with the strictly lower systolic value (0) scores 0,
the other (50) scores 3, refuting the claimed inverse relation. -/
theorem score_sbp_inverse_counterexample :
    (0 : ℤ) < 50
      ∧ calculate_triage_score none (some 0) 0 "No" "Unknown" [] = 0
      ∧ calculate_triage_score none (some 50) 0 "No" "Unknown" [] = 3 := by
  refine ⟨by decide, by decide, by decide⟩

/-- C8 amended: the triage score is inversely related to systolic blood
pressure for nonzero values: if two contexts are identical except for
the systolic value, and both values are nonzero, then the context with
the lower value receives a score greater than or equal to the other. -/
theorem score_antitone_sbp (c : PatientContext) (b1 b2 : ℤ)
    (h1 : b1 ≠ 0) (h2 : b2 ≠ 0) (hle : b1 ≤ b2) :
    score_of { c with sbp := some b2 } ≤ score_of { c with sbp := some b1 } := by
  obtain ⟨age, sex, preg, hiv, temp, hr, sbp, dbp, pain, syms, risks, notes⟩ := c
  have hb : sbpPoints (some b2) ≤ sbpPoints (some b1) := by
    simp only [sbpPoints]
    split_ifs <;> omega
  simp only [score_of, calculate_triage_score]
  exact min_le_min (le_refl 10) (by omega)

/-- Witness for C8 amended: systolic 80 versus 120, all other fields
equal; the lower value scores at least as high. -/
theorem score_antitone_sbp_witness :
    score_of
      { age := 30, sex := "Male", pregnant := "No", hiv := "Unknown"
        temp := some 37, hr := some 80, sbp := some 120, dbp := some 80
        pain := 0, symptoms := [], risks := [], notes := "" }
    ≤ score_of
      { age := 30, sex := "Male", pregnant := "No", hiv := "Unknown"
        temp := some 37, hr := some 80, sbp := some 80, dbp := some 80
        pain := 0, symptoms := [], risks := [], notes := "" } :=
  score_antitone_sbp
    { age := 30, sex := "Male", pregnant := "No", hiv := "Unknown"
      temp := some 37, hr := some 80, sbp := some 120, dbp := some 80
      pain := 0, symptoms := [], risks := [], notes := "" }
    80 120 (by decide) (by decide) (by decide)

/-- C5: when the external advisory attempt fails (the reply could not be
parsed, or the call itself raised), the tab ends up with a fallback
advisory whose confidence is "low" and whose treatment field is "—";
failure never escapes (the resolution is total), and the deterministic
treatment column of the comparison is the classifier treatment,
unchanged by the substitution. -/
theorem advisory_fallback_safe (c : PatientContext) (att : AdvisoryAttempt)
    (hfail : att = .parseFailure ∨ att = .callFailure) :
    (resolve_advisory att).confidence = "low"
      ∧ (resolve_advisory att).treatment = "—"
      ∧ (sti_comparison (classify c) (resolve_advisory att)).aiTreatment = "—"
      ∧ (sti_comparison (classify c) (resolve_advisory att)).whoTreatment
          = (classify c).treatment := by
  rcases hfail with rfl | rfl <;> exact ⟨rfl, rfl, rfl, rfl⟩

/-- Witness for C5: a parse failure on a concrete Female context. -/
theorem advisory_fallback_safe_witness :
    ((AdvisoryAttempt.parseFailure = AdvisoryAttempt.parseFailure
        ∨ AdvisoryAttempt.parseFailure = AdvisoryAttempt.callFailure))
    ∧ ((resolve_advisory .parseFailure).confidence = "low"
      ∧ (resolve_advisory .parseFailure).treatment = "—"
      ∧ (sti_comparison
          (classify
            { age := 29, sex := "Female", pregnant := "No", hiv := "Unknown"
              temp := some 37, hr := some 80, sbp := some 120, dbp := some 80
              pain := 2, symptoms := ["Vaginal discharge"], risks := []
              notes := "" })
          (resolve_advisory .parseFailure)).aiTreatment = "—"
      ∧ (sti_comparison
          (classify
            { age := 29, sex := "Female", pregnant := "No", hiv := "Unknown"
              temp := some 37, hr := some 80, sbp := some 120, dbp := some 80
              pain := 2, symptoms := ["Vaginal discharge"], risks := []
              notes := "" })
          (resolve_advisory .parseFailure)).whoTreatment
          = (classify
            { age := 29, sex := "Female", pregnant := "No", hiv := "Unknown"
              temp := some 37, hr := some 80, sbp := some 120, dbp := some 80
              pain := 2, symptoms := ["Vaginal discharge"], risks := []
              notes := "" }).treatment) :=
  ⟨Or.inl rfl,
    advisory_fallback_safe
      { age := 29, sex := "Female", pregnant := "No", hiv := "Unknown"
        temp := some 37, hr := some 80, sbp := some 120, dbp := some 80
        pain := 2, symptoms := ["Vaginal discharge"], risks := []
        notes := "" }
      .parseFailure (Or.inl rfl)⟩

/-- C4 counterexample: a Female context with both "Inguinal
swelling/tenderness" and "Lower abdominal pain" is classified as PID by
the earlier female rule, not as Inguinal bubo syndrome. -/
theorem inguinal_bubo_counterexample :
    "Inguinal swelling/tenderness"
        ∈ ["Inguinal swelling/tenderness", "Lower abdominal pain"]
      ∧ (who_sti_diagnosis "Female" "No"
          ["Inguinal swelling/tenderness", "Lower abdominal pain"]).probable
          = "Pelvic Inflammatory Disease (PID)"
      ∧ (who_sti_diagnosis "Female" "No"
          ["Inguinal swelling/tenderness", "Lower abdominal pain"]).probable
          ≠ "Inguinal bubo syndrome" := by
  refine ⟨by decide, by decide, by decide⟩

/-- C4 amended: for every context whose symptom set contains "Inguinal
swelling/tenderness", provided no earlier sex-gated rule fires (for a
Female context, neither the PID rule nor the vaginal discharge rule; for
a Male context, neither the epididymo-orchitis rule nor the urethral
discharge rule), the classifier returns Inguinal bubo syndrome,
regardless of sex and regardless of a co-occurring "Genital ulcer(s)"
symptom. -/
theorem inguinal_bubo_amended (c : PatientContext)
    (hmem : "Inguinal swelling/tenderness" ∈ c.symptoms)
    (hF : c.sex = "Female" →
      ¬("Lower abdominal pain" ∈ c.symptoms ∨ "Dyspareunia" ∈ c.symptoms
          ∨ ("Fever" ∈ c.symptoms ∧ "Vaginal discharge" ∈ c.symptoms))
        ∧ ¬("Vaginal discharge" ∈ c.symptoms ∨ "Itching/burning" ∈ c.symptoms))
    (hM : c.sex = "Male" →
      ¬("Testicular/scrotal pain/swelling" ∈ c.symptoms
          ∨ ("Fever" ∈ c.symptoms ∧ "Dysuria (painful urination)" ∈ c.symptoms))
        ∧ ¬("Urethral discharge" ∈ c.symptoms
          ∨ "Dysuria (painful urination)" ∈ c.symptoms)) :
    classify c =
      { probable := "Inguinal bubo syndrome"
        possible := "LGV, chancroid"
        treatment := "Doxycycline 100 mg PO bid x21d OR Azithromycin 1g PO weekly x3"
        labs := "Ultrasound if abscess; HIV & syphilis testing" } := by
  unfold classify who_sti_diagnosis
  split_ifs with h1 h2 h3 h4 <;> first | rfl | tauto

/-- Witness for C4 amended: a Male context with inguinal swelling and a
co-occurring genital ulcer is classified as Inguinal bubo syndrome. -/
theorem inguinal_bubo_amended_witness :
    classify
      { age := 30, sex := "Male", pregnant := "No", hiv := "Unknown"
        temp := some 37, hr := some 80, sbp := some 120, dbp := some 80
        pain := 1
        symptoms := ["Inguinal swelling/tenderness", "Genital ulcer(s)"]
        risks := [], notes := "" } =
      { probable := "Inguinal bubo syndrome"
        possible := "LGV, chancroid"
        treatment := "Doxycycline 100 mg PO bid x21d OR Azithromycin 1g PO weekly x3"
        labs := "Ultrasound if abscess; HIV & syphilis testing" } :=
  inguinal_bubo_amended
    { age := 30, sex := "Male", pregnant := "No", hiv := "Unknown"
      temp := some 37, hr := some 80, sbp := some 120, dbp := some 80
      pain := 1
      symptoms := ["Inguinal swelling/tenderness", "Genital ulcer(s)"]
      risks := [], notes := "" }
    (by decide) (by decide) (by decide)

/-- Helper: splitting a semicolon-free character list on semicolons
gives the single piece holding the whole list. -/
theorem splitSemi_no_semi : ∀ cs : List Char, ';' ∉ cs → splitSemi cs = [cs] := by
  intro cs
  induction cs with
  | nil => intro _; rfl
  | cons c cs ih =>
    intro h
    have hc : ¬ c = ';' := fun hc => h (hc ▸ List.mem_cons_self c cs)
    have hcs : ';' ∉ cs := fun hm => h (List.mem_cons_of_mem c hm)
    simp only [splitSemi, if_neg hc, ih hcs]

/-- Helper: flattening n copies of a singleton. -/
theorem flatten_replicate_singleton {α : Type} :
    ∀ (n : ℕ) (x : α), (List.replicate n [x]).flatten = List.replicate n x := by
  intro n x
  induction n with
  | zero => rfl
  | succ n ih => simp [List.replicate_succ, ih]

/-- Helper: removing duplicates from n+1 copies of one element. -/
theorem dedup_replicate_succ {α : Type} [DecidableEq α] :
    ∀ (n : ℕ) (x : α), (List.replicate (n + 1) x).dedup = [x] := by
  intro n x
  induction n with
  | zero => simp
  | succ n ih =>
    rw [List.replicate_succ,
      List.dedup_cons_of_mem (by simp [List.mem_replicate]), ih]

/-- C6 counterexample: ten cases all recording the single symptom
"Fever" produce the clear-status message, not an outbreak alert naming
the symptom, because an alert needs at least two distinct common
symptoms. -/
theorem outbreak_ten_identical_counterexample :
    detect_outbreak_patterns (List.replicate 10 "Fever")
        = "✅ No outbreak patterns detected"
      ∧ detect_outbreak_patterns (List.replicate 10 "Fever")
        ≠ "⚠️ Potential outbreak pattern detected: Fever" :=
  ⟨by decide, by decide⟩

/-- C6 amended: for a CaseHistory of exactly 10 cases that all record
the same single symptom, detect_outbreak_patterns emits the clear-status
message: only one distinct symptom can exceed the threshold, and the
alert requires at least two. -/
theorem outbreak_single_symptom_clear (sym : String) (hs : ';' ∉ sym.data) :
    detect_outbreak_patterns (List.replicate 10 sym)
      = "✅ No outbreak patterns detected" := by
  have h1 : splitSemi sym.data = [sym.data] := splitSemi_no_semi _ hs
  have h2 : (List.replicate 10 sym.data).dedup = [sym.data] :=
    dedup_replicate_succ 9 sym.data
  have h3 : (List.replicate 10 sym.data).count sym.data = 10 :=
    List.count_replicate_self _ _
  simp [detect_outbreak_patterns, List.map_replicate, h1,
    flatten_replicate_singleton, h2, h3]

/-- Witness for C6 amended: ten cases of "Fever" give the clear-status
message. -/
theorem outbreak_single_symptom_clear_witness :
    detect_outbreak_patterns (List.replicate 10 "Fever")
      = "✅ No outbreak patterns detected" :=
  outbreak_single_symptom_clear "Fever" (by decide)

/-- Helper: a decimal digit character is not regex whitespace (no Nd
block meets the whitespace table). -/
theorem not_pySpace_of_pyDigit {c : Char} (h : pyDigit c = true) :
    pySpace c = false := by
  rw [pyDigit, List.any_eq_true] at h
  obtain ⟨s, hs, hrange⟩ := h
  rw [decide_eq_true_eq] at hrange
  simp only [ndStarts, List.mem_cons, List.not_mem_nil, or_false] at hs
  rw [pySpace, decide_eq_false_iff_not]
  omega

/-- Helper: a regex whitespace character is not a decimal digit. -/
theorem not_pyDigit_of_pySpace {c : Char} (h : pySpace c = true) :
    pyDigit c = false := by
  rw [pySpace, decide_eq_true_eq] at h
  rw [pyDigit, List.any_eq_false]
  intro s hs
  simp only [ndStarts, List.mem_cons, List.not_mem_nil, or_false] at hs
  simp only [decide_eq_true_eq]
  omega

/-- Helper: characterization of the slash matcher. -/
theorem slashTail_eq_some {l t : List Char} :
    slashTail l = some t ↔ l = '/' :: t := by
  cases l with
  | nil => simp [slashTail]
  | cons c cs =>
    by_cases hc : c = '/'
    · subst hc
      simp [slashTail]
    · simp [slashTail, hc]

/-- Helper: the regex matcher succeeds on every well-shaped prefix,
capturing exactly the two digit runs. -/
theorem matchBp_complete (ws1 d1 ws2 ws3 d2 rest : List Char)
    (hw1 : ∀ c ∈ ws1, pySpace c) (hw2 : ∀ c ∈ ws2, pySpace c)
    (hw3 : ∀ c ∈ ws3, pySpace c)
    (hd1ne : d1 ≠ []) (hd1 : ∀ c ∈ d1, pyDigit c)
    (hd2ne : d2 ≠ []) (hd2 : ∀ c ∈ d2, pyDigit c)
    (hrest : ∀ c, rest.head? = some c → ¬ pyDigit c) :
    matchBp (ws1 ++ (d1 ++ (ws2 ++ '/' :: (ws3 ++ (d2 ++ rest)))))
      = some (digitsVal d1, digitsVal d2) := by
  obtain ⟨dc, d1t, rfl⟩ := List.exists_cons_of_ne_nil hd1ne
  obtain ⟨ec, d2t, rfl⟩ := List.exists_cons_of_ne_nil hd2ne
  have hdc : pyDigit dc = true := hd1 dc (List.mem_cons_self _ _)
  have hec : pyDigit ec = true := hd2 ec (List.mem_cons_self _ _)
  -- the list after the leading whitespace
  have ht1 : (ws1 ++ ((dc :: d1t) ++ (ws2 ++ '/' :: (ws3 ++ ((ec :: d2t) ++ rest))))).dropWhile pySpace
      = (dc :: d1t) ++ (ws2 ++ '/' :: (ws3 ++ ((ec :: d2t) ++ rest))) := by
    rw [List.dropWhile_append_of_pos hw1]
    exact List.dropWhile_cons_of_neg (by simp [not_pySpace_of_pyDigit hdc])
  -- the tail after the first digit run neither starts with a digit
  have hX : ((ws2 ++ '/' :: (ws3 ++ ((ec :: d2t) ++ rest))).takeWhile pyDigit = [])
      ∧ ((ws2 ++ '/' :: (ws3 ++ ((ec :: d2t) ++ rest))).dropWhile pyDigit
          = ws2 ++ '/' :: (ws3 ++ ((ec :: d2t) ++ rest))) := by
    cases ws2 with
    | nil =>
      exact ⟨List.takeWhile_cons_of_neg (by decide),
        List.dropWhile_cons_of_neg (by decide)⟩
    | cons w ws2t =>
      have hw : pySpace w = true := hw2 w (List.mem_cons_self _ _)
      exact ⟨List.takeWhile_cons_of_neg (by simp [not_pyDigit_of_pySpace hw]),
        List.dropWhile_cons_of_neg (by simp [not_pyDigit_of_pySpace hw])⟩
  -- the first captured digit run
  have htake1 : ((dc :: d1t) ++ (ws2 ++ '/' :: (ws3 ++ ((ec :: d2t) ++ rest)))).takeWhile pyDigit
      = dc :: d1t := by
    rw [List.takeWhile_append_of_pos hd1, hX.1, List.append_nil]
  have hdrop1 : ((dc :: d1t) ++ (ws2 ++ '/' :: (ws3 ++ ((ec :: d2t) ++ rest)))).dropWhile pyDigit
      = ws2 ++ '/' :: (ws3 ++ ((ec :: d2t) ++ rest)) := by
    rw [List.dropWhile_append_of_pos hd1, hX.2]
  -- past the slash
  have hslash : ((ws2 ++ '/' :: (ws3 ++ ((ec :: d2t) ++ rest))).dropWhile pySpace)
      = '/' :: (ws3 ++ ((ec :: d2t) ++ rest)) := by
    rw [List.dropWhile_append_of_pos hw2]
    exact List.dropWhile_cons_of_neg (by decide)
  -- the second captured digit run
  have ht4 : ((ws3 ++ ((ec :: d2t) ++ rest)).dropWhile pySpace)
      = (ec :: d2t) ++ rest := by
    rw [List.dropWhile_append_of_pos hw3]
    exact List.dropWhile_cons_of_neg (by simp [not_pySpace_of_pyDigit hec])
  have htake2 : (((ec :: d2t) ++ rest).takeWhile pyDigit) = ec :: d2t := by
    rw [List.takeWhile_append_of_pos hd2]
    cases rest with
    | nil => simp
    | cons r rt =>
      have hr : ¬ pyDigit r := hrest r rfl
      rw [List.takeWhile_cons_of_neg (by simpa using hr), List.append_nil]
  have hsl : slashTail ('/' :: (ws3 ++ ((ec :: d2t) ++ rest)))
      = some (ws3 ++ ((ec :: d2t) ++ rest)) := by
    simp [slashTail]
  simp only [matchBp, ht1, htake1, hdrop1, hslash, hsl, ht4, htake2,
    Option.some_bind]
  rw [if_neg (by simp), if_neg (by simp)]

/-- Helper: every successful regex match arises from a well-shaped
prefix whose digit runs carry the captured values. -/
theorem matchBp_sound (cs : List Char) (a b : ℕ)
    (h : matchBp cs = some (a, b)) :
    ∃ ws1 d1 ws2 ws3 d2 rest : List Char,
      cs = ws1 ++ (d1 ++ (ws2 ++ '/' :: (ws3 ++ (d2 ++ rest))))
        ∧ (∀ c ∈ ws1, pySpace c) ∧ (∀ c ∈ ws2, pySpace c) ∧ (∀ c ∈ ws3, pySpace c)
        ∧ d1 ≠ [] ∧ (∀ c ∈ d1, pyDigit c) ∧ d2 ≠ [] ∧ (∀ c ∈ d2, pyDigit c)
        ∧ (∀ c, rest.head? = some c → ¬ pyDigit c)
        ∧ a = digitsVal d1 ∧ b = digitsVal d2 := by
  simp only [matchBp] at h
  by_cases hd1 : (cs.dropWhile pySpace).takeWhile pyDigit = []
  · rw [if_pos hd1] at h
    cases h
  rw [if_neg hd1] at h
  cases hsl : slashTail (((cs.dropWhile pySpace).dropWhile pyDigit).dropWhile pySpace) with
  | none =>
    rw [hsl] at h
    cases h
  | some t3 =>
    rw [hsl, Option.some_bind] at h
    by_cases hd2 : ((t3.dropWhile pySpace).takeWhile pyDigit) = []
    · rw [if_pos hd2] at h
      cases h
    rw [if_neg hd2] at h
    injection h with h
    rw [Prod.mk.injEq] at h
    obtain ⟨ha, hb⟩ := h
    have e3 : ((cs.dropWhile pySpace).dropWhile pyDigit).dropWhile pySpace
        = '/' :: t3 := slashTail_eq_some.mp hsl
    refine ⟨cs.takeWhile pySpace,
      (cs.dropWhile pySpace).takeWhile pyDigit,
      ((cs.dropWhile pySpace).dropWhile pyDigit).takeWhile pySpace,
      t3.takeWhile pySpace,
      (t3.dropWhile pySpace).takeWhile pyDigit,
      (t3.dropWhile pySpace).dropWhile pyDigit,
      ?_, ?_, ?_, ?_, hd1, ?_, hd2, ?_, ?_, ha.symm, hb.symm⟩
    · symm
      rw [List.takeWhile_append_dropWhile, List.takeWhile_append_dropWhile,
        ← e3, List.takeWhile_append_dropWhile, List.takeWhile_append_dropWhile,
        List.takeWhile_append_dropWhile]
    · exact fun c hc => List.mem_takeWhile_imp hc
    · exact fun c hc => List.mem_takeWhile_imp hc
    · exact fun c hc => List.mem_takeWhile_imp hc
    · exact fun c hc => List.mem_takeWhile_imp hc
    · exact fun c hc => List.mem_takeWhile_imp hc
    · intro c hc
      have hh := List.head?_dropWhile_not pyDigit (t3.dropWhile pySpace)
      rw [hc] at hh
      simpa using hh

/-- C7 counterexample: the input "120/80abc" is not of the claimed shape
(digits slash digits with optional surrounding whitespace), yet parse_bp
returns the two integers, because re.match anchors only at the start of
the string and ignores what follows the matched prefix. -/
theorem parse_bp_claim_counterexample :
    parse_bp "120/80abc" = (some 120, some 80)
      ∧ bpClaimShape "120/80abc" = false :=
  ⟨by decide, by decide⟩

/-- C7 amended: parse_bp returns the two captured integers exactly for
strings that begin with optional whitespace, a digit run, optional
whitespace, a slash, optional whitespace and a digit run not extended by
what follows (arbitrary trailing characters are allowed), and returns
(null, null) for every string of any other shape; whitespace and digits
are the full Python `\s` and `\d` classes, so Unicode whitespace and
Unicode decimal digits are accepted with their int() values. -/
theorem parse_bp_characterization (s : String) :
    (∀ a b : ℕ, BpShapeHolds s a b → parse_bp s = (some (a : ℤ), some (b : ℤ)))
      ∧ ((∀ a b : ℕ, ¬ BpShapeHolds s a b) → parse_bp s = (none, none)) := by
  constructor
  · rintro a b ⟨ws1, d1, ws2, ws3, d2, rest, heq, hw1, hw2, hw3,
      hd1ne, hd1, hd2ne, hd2, hrest, ha, hb⟩
    have hne : s ≠ "" := by
      intro h
      subst h
      simp [show ("" : String).data = [] from rfl] at heq
    subst ha
    subst hb
    unfold parse_bp
    rw [if_neg hne, heq, matchBp_complete ws1 d1 ws2 ws3 d2 rest
      hw1 hw2 hw3 hd1ne hd1 hd2ne hd2 hrest]
  · intro hno
    by_cases hs : s = ""
    · simp [parse_bp, hs]
    cases hm : matchBp s.data with
    | none => simp [parse_bp, hs, hm]
    | some ab =>
      obtain ⟨a, b⟩ := ab
      exact absurd (matchBp_sound s.data a b hm) (hno a b)

/-- Witness for C7 amended: the well-shaped input " 120 / 80 " parses to
(120, 80) via the characterization. -/
theorem parse_bp_characterization_witness :
    parse_bp " 120 / 80 " = (some 120, some 80) :=
  (parse_bp_characterization " 120 / 80 ").1 120 80
    ⟨[' '], ['1', '2', '0'], [' '], [' '], ['8', '0'], [' '],
      by decide, by decide, by decide, by decide, by decide, by decide,
      by decide, by decide,
      by
        intro c hc
        simp only [List.head?, Option.some.injEq] at hc
        subst hc
        decide,
      by decide, by decide⟩

/-- C9: the classifier output is independent of the pregnancy flag: two
classification calls that differ only in the pregnant field return
identical results. -/
theorem classify_pregnant_independent (c : PatientContext) (p : String) :
    classify { c with pregnant := p } = classify c := rfl

/-- C10: the triage score and triage level are independent of heart rate
and diastolic blood pressure: two contexts that differ only in those two
fields receive the same score and the same level. -/
theorem score_level_hr_dbp_independent (c : PatientContext)
    (h : Option ℚ) (d : Option ℤ) :
    score_of { c with hr := h, dbp := d } = score_of c
      ∧ level_of { c with hr := h, dbp := d } = level_of c :=
  ⟨rfl, rfl⟩

end SynDx
